import Mathlib

set_option maxRecDepth 8192

/-!
Shallow embedding of the az-serializable C++ library (validation pipeline,
type-dispatched JSON serializers, property sinks) together with theorems
settling the specification claims against it.

Sources embedded:
- src/az/Validator.h        : ValidationResult, TypedValidationRule,
                              PropertyValidationRule, Validator
- src/az/TypedSerializer.h  : serializeElementToString dispatch,
                              serializeProperty (validate-then-commit)
- src/az/json/JsonSerializer.h : JsonSerializerBase (escapeString, toJson,
                              processProperty for the four ordering policies)
- src/az/JsonSerializer.h, src/az/Serializer.h : the fixed-width /
                              native-width numeric fragment paths
- src/az/SerializationErrors.h and the ValidatedJsonSerializer subclass in
  src/tests/UsageExample.cpp / src/tests/ContainerExample.cpp : path stack,
  error collector, record-and-continue validation.

Machine integers are modelled as Int / Nat with explicit wrapping where a
C++ conversion can change the value.  `char` is modelled as a byte
(a `Char` with code point < 256) that is signed on the modelled platform
(x86-64 Linux), as the escaping code's `c < 0x20` comparison depends on it.
-/

namespace az

/-- ValidationResult from Validator.h: a pass/fail flag plus message
(defaults: valid = true, message = ""). -/
structure ValidationResult where
  is_valid : Bool
  error_message : String
  deriving DecidableEq, Repr

/-- The closed set of value types the embedding uses; stands for
std::type_index over the types occurring in the modelled sessions. -/
inductive TypeTag where
  | tInt
  | tUInt
  | tString
  | tBool
  | tChar
  | tOther
  deriving DecidableEq, Repr

/-- The C++ type denoted by a tag (the T of TypedValidationRule<T>). -/
@[reducible] def TypeTag.payload : TypeTag → Type
  | .tInt => Int
  | .tUInt => Nat
  | .tString => String
  | .tBool => Bool
  | .tChar => Char
  | .tOther => Unit

/-- A property value together with its dynamic type, standing for the
std::any handed to validation rules.  `intV` carries a platform int,
`uintV` an unsigned int, `otherV` a value of a type outside the canonical
categories (the unsupported-type case). -/
inductive CppVal where
  | intV (v : Int)
  | uintV (v : Nat)
  | strV (s : String)
  | boolV (b : Bool)
  | charV (c : Char)
  | otherV
  deriving DecidableEq, Repr

/-- typeid of a value: the tag of its dynamic type. -/
def CppVal.tag : CppVal → TypeTag
  | .intV _ => .tInt
  | .uintV _ => .tUInt
  | .strV _ => .tString
  | .boolV _ => .tBool
  | .charV _ => .tChar
  | .otherV => .tOther

/-- std::any_cast<const T&>: succeeds exactly when the dynamic type of the
value is T, otherwise raises bad_any_cast (here: none). -/
def anyCast : (t : TypeTag) → CppVal → Option t.payload
  | .tInt, .intV v => some v
  | .tUInt, .uintV v => some v
  | .tString, .strV s => some s
  | .tBool, .boolV b => some b
  | .tChar, .charV c => some c
  | .tOther, .otherV => some ()
  | _, _ => none

/-- TypedValidationRule<T> from Validator.h: the type T it was registered
for, the user validator function over (property name, typed value,
serialized value), and a description. -/
structure TypedValidationRule where
  tag : TypeTag
  validator : String → tag.payload → String → ValidationResult
  description : String

/-- TypedValidationRule::validate: any_cast the value to T and run the
user function; a bad_any_cast is caught and reported as a failing
ValidationResult naming the property (never an escaping exception). -/
def TypedValidationRule.validate (r : TypedValidationRule) (property_name : String)
    (value : CppVal) (serialized_value : String) : ValidationResult :=
  match anyCast r.tag value with
  | some typed_value => r.validator property_name typed_value serialized_value
  | none => ⟨false, "Type mismatch in validation rule for property: " ++ property_name⟩

/-- PropertyValidationRule from Validator.h: bound to one property name;
validation of any other property is skipped (returns valid). -/
structure PropertyValidationRule where
  property_name : String
  validator : String → String → ValidationResult
  description : String

/-- PropertyValidationRule::validate: skip (return valid) unless the
property name matches the stored name; the std::any value is ignored. -/
def PropertyValidationRule.validate (r : PropertyValidationRule) (property_name : String)
    (serialized_value : String) : ValidationResult :=
  if property_name ≠ r.property_name then ⟨true, ""⟩
  else r.validator property_name serialized_value

/-- Validator from Validator.h: type rules (the per-type vectors of the
type_index map, here one list carrying each rule's tag), property rules,
and general rules. -/
structure Validator where
  type_rules : List TypedValidationRule
  property_rules : List PropertyValidationRule
  general_rules : List PropertyValidationRule

/-- Validator::addRule<T>: append a typed rule to the vector for T. -/
def Validator.addRule (vd : Validator) (t : TypeTag)
    (validator : String → t.payload → String → ValidationResult)
    (description : String) : Validator :=
  { vd with type_rules := vd.type_rules ++ [⟨t, validator, description⟩] }

/-- Validator::addPropertyRule: append a property-scoped rule. -/
def Validator.addPropertyRule (vd : Validator) (property_name : String)
    (validator : String → String → ValidationResult) (description : String) : Validator :=
  { vd with property_rules := vd.property_rules ++ [⟨property_name, validator, description⟩] }

/-- Validator::addGeneralRule: the rule is wrapped in a
PropertyValidationRule whose bound property name is the literal "*". -/
def Validator.addGeneralRule (vd : Validator)
    (validator : String → String → ValidationResult) (description : String) : Validator :=
  { vd with general_rules := vd.general_rules ++
      [⟨"*", fun prop serialized => validator prop serialized, description⟩] }

/-- Run rules in order, returning the first failing result (the loops in
Validator::validate return as soon as a rule fails). -/
def firstFailure {α : Type} (f : α → ValidationResult) : List α → Option ValidationResult
  | [] => none
  | r :: rs =>
    let result := f r
    if result.is_valid then firstFailure f rs else some result

/-- Validator::validate: run the type rules registered for typeid(T) (the
value's type), then the property rules, then the general rules; the first
failing rule's result is returned, otherwise valid. -/
def Validator.validate (vd : Validator) (property_name : String) (value : CppVal)
    (serialized_value : String) : ValidationResult :=
  match firstFailure (fun r => r.validate property_name value serialized_value)
      (vd.type_rules.filter (fun r => r.tag = value.tag)) with
  | some result => result
  | none =>
    match firstFailure (fun r => r.validate property_name serialized_value)
        vd.property_rules with
    | some result => result
    | none =>
      match firstFailure (fun r => r.validate property_name serialized_value)
          vd.general_rules with
      | some result => result
      | none => ⟨true, ""⟩

/-! ## String escaping (JsonSerializerBase::escapeString, identical code in
JsonSerializer::escapeJsonString) -/

/-- toHex from JsonSerializer.h: one hex digit, upper-case letters. -/
def toHex (digit : Nat) : Char :=
  if digit < 10 then Char.ofNat (48 + digit) else Char.ofNat (65 + digit - 10)

/-- The value of a byte read through a `char`, which is signed 8-bit on the
modelled platform: bytes ≥ 0x80 are negative. -/
def signedCharVal (c : Char) : Int :=
  if c.toNat < 128 then (c.toNat : Int) else (c.toNat : Int) - 256

/-- `(c >> k) & 0xF` on the int-promoted (sign-extended) char: arithmetic
right shift is flooring division by 2^k, and masking a two's-complement
int with 0xF is its residue mod 16. -/
def intNibble (s : Int) (k : Nat) : Nat :=
  ((Int.fdiv s (2 ^ k)).emod 16).toNat

/-- One iteration of the escapeString loop: the escape sequence (or the
character itself) appended for one char of the input. -/
def escapeChar (c : Char) : List Char :=
  if c = Char.ofNat 34 then [Char.ofNat 92, Char.ofNat 34]
  else if c = Char.ofNat 92 then [Char.ofNat 92, Char.ofNat 92]
  else if c = Char.ofNat 8 then [Char.ofNat 92, Char.ofNat 98]
  else if c = Char.ofNat 12 then [Char.ofNat 92, Char.ofNat 102]
  else if c = Char.ofNat 10 then [Char.ofNat 92, Char.ofNat 110]
  else if c = Char.ofNat 13 then [Char.ofNat 92, Char.ofNat 114]
  else if c = Char.ofNat 9 then [Char.ofNat 92, Char.ofNat 116]
  else
    let s := signedCharVal c
    if s < 32 then
      [Char.ofNat 92, Char.ofNat 117,
       toHex (intNibble s 12), toHex (intNibble s 8),
       toHex (intNibble s 4), toHex (intNibble s 0)]
    else [c]

/-- The escapeString loop over the whole input. -/
def escapeList : List Char → List Char
  | [] => []
  | c :: cs => escapeChar c ++ escapeList cs

/-- JsonSerializerBase::escapeString / JsonSerializer::escapeJsonString. -/
def escapeString (input : String) : String :=
  String.mk (escapeList input.data)

/-! ## Numeric fragments (std::to_string) and width conversions -/

/-- std::to_string on any signed integer type: the decimal text of the
argument's value. -/
def cppToStringSigned (v : Int) : String := toString v

/-- std::to_string on any unsigned integer type: the decimal text of the
argument's value. -/
def cppToStringUnsigned (v : Nat) : String := toString v

/-- static_cast to a w-bit signed integer: wrap modulo 2^w into
[-2^(w-1), 2^(w-1)). -/
def wrapSigned (w : Nat) (v : Int) : Int :=
  (v + 2 ^ (w - 1)) % 2 ^ w - 2 ^ (w - 1)

/-- static_cast to a w-bit unsigned integer: reduce modulo 2^w. -/
def wrapUnsigned (w : Nat) (v : Nat) : Nat := v % 2 ^ w

/-! ## Fragment rendering (TypedSerializer of src/az/TypedSerializer.h with
the JsonSerializerBase overrides of src/az/json/JsonSerializer.h) -/

/-- The fixed fragment of TypedSerializer::serializeUnsupportedType. -/
def unsupportedSentinel : String := "\"[unsupported type]\""

/-- TypedSerializer::serializeElementToString dispatch, with the
JsonSerializerBase overrides for bool / char / string: int (and the other
native signed types) casts to int64 then std::to_string; unsigned casts to
uint64; bool renders true/false; char and string are quoted and escaped;
anything outside the canonical categories gets the sentinel. -/
def serializeElementToString : CppVal → String
  | .intV v => cppToStringSigned (wrapSigned 64 v)
  | .uintV v => cppToStringUnsigned (wrapUnsigned 64 v)
  | .boolV b => if b then "true" else "false"
  | .charV c => "\"" ++ escapeString (String.mk [c]) ++ "\""
  | .strV s => "\"" ++ escapeString s ++ "\""
  | .otherV => unsupportedSentinel

/-! ## Property sinks: the four PropertyContainer policies of
JsonSerializerBase (src/az/json/JsonSerializer.h) -/

/-- `properties_[name] = value` on a map container: update the entry in
place if the key exists, otherwise append.  This is the functional
behavior shared by std::unordered_map (iteration order unspecified; the
model keeps one consistent order) and, composed with sorted insertion
below, std::map. -/
def mapInsert : List (String × String) → String → String → List (String × String)
  | [], name, value => [(name, value)]
  | (k, v) :: rest, name, value =>
    if k = name then (k, value) :: rest
    else (k, v) :: mapInsert rest name value

/-- Lexicographic byte-wise comparison of strings:
std::less<std::string>, the ordering of std::map's keys. -/
def charListLt : List Char → List Char → Bool
  | [], [] => false
  | [], _ :: _ => true
  | _ :: _, [] => false
  | a :: as, b :: bs =>
    if a.toNat < b.toNat then true
    else if b.toNat < a.toNat then false
    else charListLt as bs

/-- std::less on std::string. -/
def strLess (a b : String) : Bool := charListLt a.data b.data

/-- `properties_[name] = value` on std::map: entries kept sorted by key,
existing key updated in place. -/
def sortedInsert : List (String × String) → String → String → List (String × String)
  | [], name, value => [(name, value)]
  | (k, v) :: rest, name, value =>
    if strLess name k then (name, value) :: (k, v) :: rest
    else if name = k then (name, value) :: rest
    else (k, v) :: sortedInsert rest name value

/-- State of JsonSerializerBase over std::vector (the FIFO and LIFO
policies): the vector of (name, value) pairs plus the
existed_properties_ name→index map. -/
structure VecSinkState where
  properties : List (String × String)
  existed_properties : List (String × Nat)
  deriving DecidableEq, Repr

/-- unordered_map<string,int>::find on the model of existed_properties_. -/
def lookupIndex (m : List (String × Nat)) (name : String) : Option Nat :=
  match m with
  | [] => none
  | (k, i) :: rest => if k = name then some i else lookupIndex rest name

/-- `properties_[i].second = value`: overwrite the value component of the
vector entry at index i (an out-of-range i is undefined behavior in the
C++; the model is only evaluated at in-range indices). -/
def setSecond (l : List (String × String)) (i : Nat) (value : String) :
    List (String × String) :=
  l.mapIdx (fun j kv => if j = i then (kv.1, value) else kv)

/-- unordered_map `existed_properties_[name] = idx` (update or insert). -/
def indexInsert : List (String × Nat) → String → Nat → List (String × Nat)
  | [], name, idx => [(name, idx)]
  | (k, i) :: rest, name, idx =>
    if k = name then (k, idx) :: rest
    else (k, i) :: indexInsert rest name idx

/-- JsonSerializerBase::processProperty for the vector policies: if the
name is already present, write the new value at the remembered index;
otherwise push_back the pair and record `properties_.size()` — the size
AFTER the push — as the name's index. -/
def processPropertyVec (st : VecSinkState) (name value : String) : VecSinkState :=
  match lookupIndex st.existed_properties name with
  | some idx => { st with properties := setSecond st.properties idx value }
  | none =>
    let pushed := st.properties ++ [(name, value)]
    { properties := pushed,
      existed_properties := indexInsert st.existed_properties name pushed.length }

/-! ## Assembly: JsonSerializerBase::toJson -/

/-- The toJson loop body: append a comma unless this is the first entry,
then the quoted (unescaped) key, a colon, and the stored fragment. -/
def toJsonStep (acc : String × Bool) (kv : String × String) : String × Bool :=
  ((if acc.2 then acc.1 else acc.1 ++ ",") ++ "\"" ++ kv.1 ++ "\":" ++ kv.2, false)

/-- JsonSerializerBase::toJson / JsonSerializer::toJson over the stored
entries in iteration order: empty store gives "\x7b\x7d", otherwise the
brace-wrapped comma fold. -/
def toJsonEntries (entries : List (String × String)) : String :=
  if entries.isEmpty then "\x7b\x7d"
  else (entries.foldl toJsonStep ("\x7b", true)).1 ++ "\x7d"

/-- toJson of the reverse = true instantiation (LIFOJsonSerializer):
iterate rbegin to rend. -/
def toJsonEntriesReverse (entries : List (String × String)) : String :=
  if entries.isEmpty then "\x7b\x7d"
  else (entries.reverse.foldl toJsonStep ("\x7b", true)).1 ++ "\x7d"

/-- JsonSerializerBase::serializeToString(const std::vector<std::string>&):
array assembly of already-encoded element fragments. -/
def serializeArrayFragments (elements : List String) : String :=
  if elements.isEmpty then "[]"
  else
    let step := fun (acc : String × Bool) (element : String) =>
      ((if acc.2 then acc.1 else acc.1 ++ ",") ++ element, false)
    (elements.foldl step ("[", true)).1 ++ "]"

/-- JsonSerializerBase::serializeToString(const std::vector<std::pair<...>>&):
object assembly of already-encoded key/value fragment pairs; a key is
re-quoted only when its encoded form is not already a quoted string. -/
def serializeObjectFragments (pairs : List (String × String)) : String :=
  if pairs.isEmpty then "\x7b\x7d"
  else
    let step := fun (acc : String × Bool) (kv : String × String) =>
      let quotedKey :=
        if kv.1.isEmpty ∨ kv.1.front ≠ Char.ofNat 34 ∨ kv.1.back ≠ Char.ofNat 34 then
          "\"" ++ kv.1 ++ "\""
        else kv.1
      ((if acc.2 then acc.1 else acc.1 ++ ",") ++ quotedKey ++ ":" ++ kv.2, false)
    (pairs.foldl step ("\x7b", true)).1 ++ "\x7d"

/-- TypedSerializer::serializeSequenceContainer: encode each element
through the full pipeline, then assemble. -/
def serializeSequenceContainer (elements : List CppVal) : String :=
  serializeArrayFragments (elements.map serializeElementToString)

/-- TypedSerializer::serializeAssociativeContainer: encode each key and
value through the full pipeline, then assemble. -/
def serializeAssociativeContainer (pairs : List (CppVal × CppVal)) : String :=
  serializeObjectFragments
    (pairs.map (fun kv => (serializeElementToString kv.1, serializeElementToString kv.2)))

/-! ## Encoding sessions over TypedSerializer (src/az/TypedSerializer.h)
with the default (unordered_map) sink of JsonSerializerBase -/

/-- One encoding session of JsonSerializerBase over the unordered_map
policy: the property store plus the validator pointer set by
setValidator (none when no validator is registered). -/
structure SessionState where
  properties : List (String × String)
  validator : Option Validator

/-- JsonSerializerBase::processProperty for the associative policy:
`properties_[name] = value`. -/
def SessionState.processProperty (st : SessionState) (name value : String) : SessionState :=
  { st with properties := mapInsert st.properties name value }

/-- TypedSerializer::serializeProperty: encode the value, then — when a
validator is registered — run Validator::validate; on failure throw a
ValidationException (returned as `some message` with the serializer's
state unchanged, since the only mutation, processProperty, comes after
the throw); on success commit via processProperty. -/
def SessionState.serializeProperty (st : SessionState) (name : String) (value : CppVal) :
    SessionState × Option String :=
  let serialized_value := serializeElementToString value
  match st.validator with
  | some vd =>
    let result := vd.validate name value serialized_value
    if result.is_valid then (st.processProperty name serialized_value, none)
    else (st, some ("Validation failed for property '" ++ name ++ "': " ++
      result.error_message))
  | none => (st.processProperty name serialized_value, none)

/-- Serializable::serialize / visitProperties: present each property in
order to serializeProperty; a thrown ValidationException propagates out,
so later properties are not presented. -/
def serializeSession (st : SessionState) :
    List (String × CppVal) → SessionState × Option String
  | [] => (st, none)
  | (name, value) :: rest =>
    match st.serializeProperty name value with
    | (st2, none) => serializeSession st2 rest
    | (st2, some e) => (st2, some e)

/-! ## The error-collecting serializer: ValidatedSerializer
(src/az/SerializationErrors.h) as concretized by ValidatedJsonSerializer
in src/tests/UsageExample.cpp (with the unsupported-type override of
src/tests/ContainerExample.cpp, which path-scopes the error) -/

/-- SerializationError: a dotted property path, a message, and an optional
type tag. -/
structure SerializationError where
  property_path : String
  error_message : String
  type_name : String
  deriving DecidableEq, Repr

/-- State of a ValidatedJsonSerializer: the error collector, the current
dotted path with its stack (ValidatedSerializer), and the inner
JsonSerializer's unordered_map property store. -/
structure VStat where
  json : List (String × String)
  errors : List SerializationError
  current_path : String
  path_stack : List String
  deriving DecidableEq, Repr

/-- ValidatedSerializer::pushPath: save the current path and extend it
with the property name, dot-joined unless it was empty. -/
def VStat.pushPath (st : VStat) (property_name : String) : VStat :=
  { st with
    path_stack := st.path_stack ++ [st.current_path],
    current_path :=
      if st.current_path.isEmpty then property_name
      else st.current_path ++ "." ++ property_name }

/-- ValidatedSerializer::popPath: restore the saved path (no-op on an
empty stack). -/
def VStat.popPath (st : VStat) : VStat :=
  match st.path_stack.getLast? with
  | some saved =>
    { st with current_path := saved, path_stack := st.path_stack.dropLast }
  | none => st

/-- ValidatedSerializer::addError: record a SerializationError at the
current path. -/
def VStat.addError (st : VStat) (message type_name : String) : VStat :=
  { st with errors := st.errors ++ [⟨st.current_path, message, type_name⟩] }

/-- SerializationErrorCollector::hasErrors. -/
def VStat.hasErrors (st : VStat) : Bool := ¬ st.errors.isEmpty

/-- ValidatedJsonSerializer::serializeProperty(name, int): push the path;
if the value is negative record an error and do NOT commit, otherwise
commit std::to_string(value) to the inner sink; pop the path; always
return (encoding continues with the next property). -/
def VStat.serializePropertyInt (st : VStat) (name : String) (value : Int) : VStat :=
  let st1 := st.pushPath name
  let st2 :=
    if value < 0 then st1.addError "Negative integer values not allowed" "int"
    else { st1 with json := mapInsert st1.json name (cppToStringSigned value) }
  st2.popPath

/-- ValidatedJsonSerializer::serializeProperty(name, const std::string&):
as above with the over-1000-characters rule and a quoted escaped
fragment. -/
def VStat.serializePropertyString (st : VStat) (name : String) (value : String) : VStat :=
  let st1 := st.pushPath name
  let st2 :=
    if 1000 < value.length then st1.addError "String too long (max 1000 characters)" "string"
    else { st1 with json := mapInsert st1.json name ("\"" ++ escapeString value ++ "\"") }
  st2.popPath

/-- ContainerValidatedSerializer::serializeUnsupportedType
(src/tests/ContainerExample.cpp): record a soft error at the property's
path; nothing is committed to the sink. -/
def VStat.serializeUnsupportedType (st : VStat) (name : String) : VStat :=
  ((st.pushPath name).addError "Unsupported type encountered" "unknown").popPath

/-- A top-level int-property stream through ValidatedJsonSerializer. -/
def runValidatedInts (st : VStat) : List (String × Int) → VStat
  | [] => st
  | (name, value) :: rest => runValidatedInts (st.serializePropertyInt name value) rest

/-- A fresh ValidatedJsonSerializer. -/
def VStat.init : VStat := ⟨[], [], "", []⟩

/-! ## Generic versus fixed-width numeric routing
(src/az/TypedSerializer.h serializeElementToString,
src/az/Serializer.h serializeProperty<T>,
src/az/JsonSerializer.h serializeInt32 / serializeInt64 /
serializeUint32 / serializeUint64 and the int8/int16/uint8/uint16
overloads) -/

/-- Generic native-width signed path: int, long and long long are cast to
int64_t and rendered with std::to_string (TypedSerializer.h). -/
def genericSignedFragment (v : Int) : String := cppToStringSigned (wrapSigned 64 v)

/-- Generic native-width unsigned path: cast to uint64_t, std::to_string. -/
def genericUnsignedFragment (v : Nat) : String := cppToStringUnsigned (wrapUnsigned 64 v)

/-- Fixed-width int8 path: std::to_string(static_cast<int>(value))
(JsonSerializer.h, int is 32-bit on the modelled platform). -/
def fixedInt8Fragment (v : Int) : String := cppToStringSigned (wrapSigned 32 v)

/-- Fixed-width int16 path: std::to_string(value) after integer promotion. -/
def fixedInt16Fragment (v : Int) : String := cppToStringSigned v

/-- Fixed-width int32 path: JsonSerializer::serializeInt32. -/
def fixedInt32Fragment (v : Int) : String := cppToStringSigned v

/-- Fixed-width int64 path: JsonSerializer::serializeInt64. -/
def fixedInt64Fragment (v : Int) : String := cppToStringSigned v

/-- Fixed-width uint8 path: std::to_string(static_cast<unsigned int>(value)). -/
def fixedUint8Fragment (v : Nat) : String := cppToStringUnsigned (wrapUnsigned 32 v)

/-- Fixed-width uint16 path: std::to_string(value) after promotion. -/
def fixedUint16Fragment (v : Nat) : String := cppToStringUnsigned v

/-- Fixed-width uint32 path: JsonSerializer::serializeUint32. -/
def fixedUint32Fragment (v : Nat) : String := cppToStringUnsigned v

/-- Fixed-width uint64 path: JsonSerializer::serializeUint64. -/
def fixedUint64Fragment (v : Nat) : String := cppToStringUnsigned v

/-! ## Concrete rule sets, runs and spec-side shapes used by the theorems -/

/-- A sample type-scoped rule registered for std::string that itself
always passes (so any failure comes from the type-mismatch guard). -/
def sampleStringRule : TypedValidationRule :=
  ⟨.tString, fun _ _ _ => ⟨true, ""⟩, "String length >= 3"⟩

/-- The FIFO-policy run writing "a", then "b", then "a" again. -/
def fifoOverwriteRun : VecSinkState :=
  processPropertyVec (processPropertyVec (processPropertyVec ⟨[], []⟩ "a" "1") "b" "2") "a" "3"

/-- A validator whose only rule is a general (wildcard) rule that rejects
every property (registered through addGeneralRule, as in
examples/ValidatorExample.cpp). -/
def failAllGeneralValidator : Validator :=
  (Validator.mk [] [] []).addGeneralRule
    (fun _ _ => ⟨false, "Serialized value too long (>1000 chars)"⟩)
    "Serialized value length <= 1000"

/-- One assembled entry: the quoted key inserted verbatim, a colon, and
the stored fragment (the shape toJson's loop gives each entry). -/
def entryFragment (kv : String × String) : String := "\"" ++ kv.1 ++ "\":" ++ kv.2

/-- Comma-prefixed entries after the first. -/
def entriesTail : List (String × String) → String
  | [] => ""
  | kv :: rest => "," ++ entryFragment kv ++ entriesTail rest

/-- The object-literal shape of the spec's assembly sentence, with keys
inserted verbatim: empty gives \x7b\x7d, otherwise the brace-wrapped
comma-separated entries with no trailing comma. -/
def objectLiteralVerbatim : List (String × String) → String
  | [] => "\x7b\x7d"
  | kv :: rest => "\x7b" ++ entryFragment kv ++ entriesTail rest ++ "\x7d"

/-- The non-negative-integer rule of examples/ValidatorExample.cpp,
registered as a type-scoped rule for int. -/
def nonNegIntValidator : Validator :=
  (Validator.mk [] [] []).addRule .tInt
    (fun _ value _ =>
      if value < 0 then ⟨false, "Integer must be non-negative"⟩ else ⟨true, ""⟩)
    "Integer >= 0"

/-- The error-collecting serializer applied to one unsupported-typed
property named "x". -/
def unsupportedValidatedRun : VStat := VStat.init.serializeUnsupportedType "x"

/-- Committing a stream of properties without validation interference:
the fold of processProperty over the encoded fragments. -/
def commitAll (st : SessionState) (props : List (String × CppVal)) : SessionState :=
  props.foldl (fun s p => s.processProperty p.1 (serializeElementToString p.2)) st

/-- The ErrorRecords the validated serializer produces from a top-level
int-property stream: one per negative value, at that property's path. -/
def failedIntRecords : List (String × Int) → List SerializationError
  | [] => []
  | (name, value) :: rest =>
    if value < 0 then
      ⟨name, "Negative integer values not allowed", "int"⟩ :: failedIntRecords rest
    else failedIntRecords rest

/-- The entries the validated serializer commits from a top-level
int-property stream: the non-negative properties in order. -/
def passingIntEntries : List (String × Int) → List (String × String)
  | [] => []
  | (name, value) :: rest =>
    if value < 0 then passingIntEntries rest
    else (name, cppToStringSigned value) :: passingIntEntries rest

/-- The inner sink contents after the validated serializer processes an
int-property stream: passing properties inserted in order. -/
def passedIntCommits (json : List (String × String)) :
    List (String × Int) → List (String × String)
  | [] => json
  | (name, value) :: rest =>
    if value < 0 then passedIntCommits json rest
    else passedIntCommits (mapInsert json name (cppToStringSigned value)) rest

/-- The registered-validator session that accepts a failing property
first: the int rule rejects "a" = -1 before "b" = 1 is reached. -/
def abortedSession : SessionState × Option String :=
  serializeSession ⟨[], some nonNegIntValidator⟩
    [("a", .intV (-1)), ("b", .intV 1)]

/-! ## Helper lemmas -/

/-- std::any_cast fails exactly when the dynamic type differs from the
requested one. -/
theorem anyCast_eq_none {t : TypeTag} {value : CppVal} (h : value.tag ≠ t) :
    anyCast t value = none := by
  cases t <;> cases value <;> simp_all [anyCast, CppVal.tag]

/-! ## Claim theorems -/

/-- C8: whenever a type-scoped validation rule registered for type T is
invoked with a value whose dynamic type is not T, its validate call
returns a failing ValidationResult carrying a type-mismatch message for
that property, and the type error never escapes as a crash or uncaught
exception (validate is total and returns the failing result). -/
theorem C8_type_mismatch_reports_failure (r : TypedValidationRule)
    (property_name : String) (value : CppVal) (serialized_value : String)
    (h : value.tag ≠ r.tag) :
    r.validate property_name value serialized_value =
      ⟨false, "Type mismatch in validation rule for property: " ++ property_name⟩ := by
  unfold TypedValidationRule.validate
  rw [anyCast_eq_none h]


/-- Witness for C8: the string-scoped rule invoked with an int value
reports the type-mismatch failure. -/
theorem C8_type_mismatch_reports_failure_witness :
    (CppVal.intV 3).tag ≠ sampleStringRule.tag ∧
    sampleStringRule.validate "age" (.intV 3) "3" =
      ⟨false, "Type mismatch in validation rule for property: age"⟩ :=
  ⟨by decide, C8_type_mismatch_reports_failure sampleStringRule "age" (.intV 3) "3"
    (by decide)⟩

/-- C9: an empty sequence container encodes to [], an empty associative
container encodes to \x7b\x7d, and an empty sink assembles to \x7b\x7d
(under every ordering policy, forward or reverse iteration). -/
theorem C9_empty_container_laws :
    serializeSequenceContainer [] = "[]" ∧
    serializeAssociativeContainer [] = "\x7b\x7d" ∧
    toJsonEntries [] = "\x7b\x7d" ∧
    toJsonEntriesReverse [] = "\x7b\x7d" :=
  ⟨rfl, rfl, rfl, rfl⟩


/-- C2 (behavior at the failing input): under the vector (FIFO/LIFO)
policies, processProperty records `properties_.size()` taken AFTER the
push_back as the name's index, so re-writing "a" updates the entry one
past "a" — here corrupting "b" and leaving "a" at its first value — while
the associative policies (unordered and sorted) overwrite correctly. -/
theorem C2_fifo_overwrite_off_by_one :
    fifoOverwriteRun.properties = [("a", "1"), ("b", "3")] ∧
    fifoOverwriteRun.properties ≠ [("a", "3"), ("b", "2")] ∧
    toJsonEntries fifoOverwriteRun.properties = "\x7b\"a\":1,\"b\":3\x7d" ∧
    toJsonEntriesReverse fifoOverwriteRun.properties = "\x7b\"b\":3,\"a\":1\x7d" ∧
    mapInsert (mapInsert (mapInsert [] "a" "1") "b" "2") "a" "3" =
      [("a", "3"), ("b", "2")] ∧
    sortedInsert (sortedInsert (sortedInsert [] "a" "1") "b" "2") "a" "3" =
      [("a", "3"), ("b", "2")] := by
  refine ⟨rfl, by decide, rfl, rfl, rfl, by decide⟩


/-- C3 (behavior at the failing input): a rule registered through
addGeneralRule is wrapped in a PropertyValidationRule bound to the
literal name "*", so validating an ordinary property ("age") skips it and
succeeds; only a property literally named "*" triggers it. -/
theorem C3_general_rule_skipped_for_ordinary_names :
    failAllGeneralValidator.validate "age" (.intV 5) "5" = ⟨true, ""⟩ ∧
    failAllGeneralValidator.validate "*" (.intV 5) "5" =
      ⟨false, "Serialized value too long (>1000 chars)"⟩ := by
  exact ⟨rfl, rfl⟩

/-- Casting a value already in 64-bit signed range to int64_t keeps it. -/
theorem wrapSigned64_eq_self (v : Int) (h1 : -(2 ^ 63) ≤ v) (h2 : v < 2 ^ 63) :
    wrapSigned 64 v = v := by
  unfold wrapSigned
  norm_num at h1 h2 ⊢
  omega

/-- Casting a value already in 32-bit signed range to int keeps it. -/
theorem wrapSigned32_eq_self (v : Int) (h1 : -(2 ^ 31) ≤ v) (h2 : v < 2 ^ 31) :
    wrapSigned 32 v = v := by
  unfold wrapSigned
  norm_num at h1 h2 ⊢
  omega

/-- Casting a value already below 2^w to a ≥ w-bit unsigned type keeps it. -/
theorem wrapUnsigned_eq_self (w : Nat) (v : Nat) (h : v < 2 ^ w) :
    wrapUnsigned w v = v :=
  Nat.mod_eq_of_lt h

/-- C4: for every supported fixed-width integer value, the numeric text of
the fixed-width path equals the text of the generic native-width path:
category resolution changes which path computes the fragment, never the
fragment itself. -/
theorem C4_fixed_width_equals_generic_path :
    (∀ v : Int, -(2 ^ 7) ≤ v → v < 2 ^ 7 →
      fixedInt8Fragment v = genericSignedFragment v) ∧
    (∀ v : Int, -(2 ^ 15) ≤ v → v < 2 ^ 15 →
      fixedInt16Fragment v = genericSignedFragment v) ∧
    (∀ v : Int, -(2 ^ 31) ≤ v → v < 2 ^ 31 →
      fixedInt32Fragment v = genericSignedFragment v) ∧
    (∀ v : Int, -(2 ^ 63) ≤ v → v < 2 ^ 63 →
      fixedInt64Fragment v = genericSignedFragment v) ∧
    (∀ v : Nat, v < 2 ^ 8 → fixedUint8Fragment v = genericUnsignedFragment v) ∧
    (∀ v : Nat, v < 2 ^ 16 → fixedUint16Fragment v = genericUnsignedFragment v) ∧
    (∀ v : Nat, v < 2 ^ 32 → fixedUint32Fragment v = genericUnsignedFragment v) ∧
    (∀ v : Nat, v < 2 ^ 64 → fixedUint64Fragment v = genericUnsignedFragment v) := by
  refine ⟨?_, ?_, ?_, ?_, ?_, ?_, ?_, ?_⟩
  · intro v h1 h2
    unfold fixedInt8Fragment genericSignedFragment
    rw [wrapSigned32_eq_self v (by norm_num at h1 ⊢; omega) (by norm_num at h2 ⊢; omega),
      wrapSigned64_eq_self v (by norm_num at h1 ⊢; omega) (by norm_num at h2 ⊢; omega)]
  · intro v h1 h2
    unfold fixedInt16Fragment genericSignedFragment
    rw [wrapSigned64_eq_self v (by norm_num at h1 ⊢; omega) (by norm_num at h2 ⊢; omega)]
  · intro v h1 h2
    unfold fixedInt32Fragment genericSignedFragment
    rw [wrapSigned64_eq_self v (by norm_num at h1 ⊢; omega) (by norm_num at h2 ⊢; omega)]
  · intro v h1 h2
    unfold fixedInt64Fragment genericSignedFragment
    rw [wrapSigned64_eq_self v h1 h2]
  · intro v h
    unfold fixedUint8Fragment genericUnsignedFragment
    rw [wrapUnsigned_eq_self 32 v (by norm_num at h ⊢; omega),
      wrapUnsigned_eq_self 64 v (by norm_num at h ⊢; omega)]
  · intro v h
    unfold fixedUint16Fragment genericUnsignedFragment
    rw [wrapUnsigned_eq_self 64 v (by norm_num at h ⊢; omega)]
  · intro v h
    unfold fixedUint32Fragment genericUnsignedFragment
    rw [wrapUnsigned_eq_self 64 v (by norm_num at h ⊢; omega)]
  · intro v h
    unfold fixedUint64Fragment genericUnsignedFragment
    rw [wrapUnsigned_eq_self 64 v h]

/-- Witness for C4: each width at a concrete in-range value. -/
theorem C4_fixed_width_equals_generic_path_witness :
    fixedInt8Fragment (-5) = genericSignedFragment (-5) ∧
    fixedInt16Fragment 1000 = genericSignedFragment 1000 ∧
    fixedInt32Fragment (-2000000) = genericSignedFragment (-2000000) ∧
    fixedInt64Fragment 4000000000 = genericSignedFragment 4000000000 ∧
    fixedUint8Fragment 255 = genericUnsignedFragment 255 ∧
    fixedUint16Fragment 65535 = genericUnsignedFragment 65535 ∧
    fixedUint32Fragment 4000000000 = genericUnsignedFragment 4000000000 ∧
    fixedUint64Fragment 4000000000 = genericUnsignedFragment 4000000000 :=
  ⟨C4_fixed_width_equals_generic_path.1 (-5) (by norm_num) (by norm_num),
   C4_fixed_width_equals_generic_path.2.1 1000 (by norm_num) (by norm_num),
   C4_fixed_width_equals_generic_path.2.2.1 (-2000000) (by norm_num) (by norm_num),
   C4_fixed_width_equals_generic_path.2.2.2.1 4000000000 (by norm_num) (by norm_num),
   C4_fixed_width_equals_generic_path.2.2.2.2.1 255 (by norm_num),
   C4_fixed_width_equals_generic_path.2.2.2.2.2.1 65535 (by norm_num),
   C4_fixed_width_equals_generic_path.2.2.2.2.2.2.1 4000000000 (by norm_num),
   C4_fixed_width_equals_generic_path.2.2.2.2.2.2.2 4000000000 (by norm_num)⟩

/-- A byte in the printable ASCII range other than quote and backslash is
passed through by the escape loop unchanged. -/
theorem escapeChar_of_safe (c : Char) (h1 : 32 ≤ c.toNat) (h2 : c.toNat < 128)
    (h3 : c.toNat ≠ 34) (h4 : c.toNat ≠ 92) : escapeChar c = [c] := by
  have n34 : c ≠ Char.ofNat 34 := fun h => h3 (by rw [h]; rfl)
  have n92 : c ≠ Char.ofNat 92 := fun h => h4 (by rw [h]; rfl)
  have n8 : c ≠ Char.ofNat 8 := fun h => by rw [h] at h1; exact absurd h1 (by decide)
  have n12 : c ≠ Char.ofNat 12 := fun h => by rw [h] at h1; exact absurd h1 (by decide)
  have n10 : c ≠ Char.ofNat 10 := fun h => by rw [h] at h1; exact absurd h1 (by decide)
  have n13 : c ≠ Char.ofNat 13 := fun h => by rw [h] at h1; exact absurd h1 (by decide)
  have n9 : c ≠ Char.ofNat 9 := fun h => by rw [h] at h1; exact absurd h1 (by decide)
  have hge : ¬ signedCharVal c < 32 := by
    unfold signedCharVal
    rw [if_pos h2]
    omega
  simp [escapeChar, n34, n92, n8, n12, n10, n13, n9, hge]

/-- The escape loop is the identity on a list of safe bytes. -/
theorem escapeList_of_safe : ∀ l : List Char,
    (∀ c ∈ l, 32 ≤ c.toNat ∧ c.toNat < 128 ∧ c.toNat ≠ 34 ∧ c.toNat ≠ 92) →
    escapeList l = l
  | [], _ => rfl
  | c :: cs, h => by
    have hc := h c (List.mem_cons_self c cs)
    rw [escapeList, escapeChar_of_safe c hc.1 hc.2.1 hc.2.2.1 hc.2.2.2,
      escapeList_of_safe cs (fun d hd => h d (List.mem_cons_of_mem c hd))]
    rfl

/-- C5 counterexample: the byte 0xFF is ≥ 0x20, yet the escaper does not
pass it through — read through a signed char it is negative, so it falls
into the `c < 0x20` branch and is emitted as a sign-extended 4-hex-digit
escape. -/
theorem C5_high_byte_not_passed_through :
    escapeString (String.mk [Char.ofNat 255]) = "\\uFFFF" ∧
    escapeString (String.mk [Char.ofNat 255]) ≠ String.mk [Char.ofNat 255] := by
  exact ⟨by decide, by decide⟩

/-- C5 (amended): the escaper maps quote, backslash, backspace, form-feed,
newline, carriage-return and tab to their two-character escapes; every
other byte whose signed-char value is below 0x20 — the remaining control
bytes 0x00–0x1F and ALL bytes 0x80–0xFF — to a 4-hex-digit \uXXXX escape
(for high bytes the digits are those of the 16 low bits of the
sign-extended value); bytes 0x20–0x7F other than quote and backslash pass
through unchanged, so escaping is the identity on strings of such safe
bytes. -/
theorem C5_escape_mapping :
    escapeChar (Char.ofNat 34) = [Char.ofNat 92, Char.ofNat 34] ∧
    escapeChar (Char.ofNat 92) = [Char.ofNat 92, Char.ofNat 92] ∧
    escapeChar (Char.ofNat 8) = [Char.ofNat 92, Char.ofNat 98] ∧
    escapeChar (Char.ofNat 12) = [Char.ofNat 92, Char.ofNat 102] ∧
    escapeChar (Char.ofNat 10) = [Char.ofNat 92, Char.ofNat 110] ∧
    escapeChar (Char.ofNat 13) = [Char.ofNat 92, Char.ofNat 114] ∧
    escapeChar (Char.ofNat 9) = [Char.ofNat 92, Char.ofNat 116] ∧
    (∀ b : Nat, b < 32 → b ∉ ([8, 9, 10, 12, 13] : List Nat) →
      escapeChar (Char.ofNat b) =
        [Char.ofNat 92, Char.ofNat 117, Char.ofNat 48, Char.ofNat 48,
         toHex (b / 16), toHex (b % 16)]) ∧
    (∀ b : Nat, b < 128 → 32 ≤ b → b ≠ 34 → b ≠ 92 →
      escapeChar (Char.ofNat b) = [Char.ofNat b]) ∧
    (∀ b : Nat, b < 256 → 128 ≤ b →
      escapeChar (Char.ofNat b) =
        [Char.ofNat 92, Char.ofNat 117,
         toHex ((b + 65280) / 4096 % 16), toHex ((b + 65280) / 256 % 16),
         toHex ((b + 65280) / 16 % 16), toHex ((b + 65280) % 16)]) ∧
    (∀ s : String,
      (∀ c ∈ s.data, 32 ≤ c.toNat ∧ c.toNat < 128 ∧ c.toNat ≠ 34 ∧ c.toNat ≠ 92) →
      escapeString s = s) := by
  refine ⟨rfl, rfl, rfl, rfl, rfl, rfl, rfl, by decide, by decide, by decide, ?_⟩
  intro s h
  cases s with
  | mk data =>
    rw [escapeString, escapeList_of_safe data h]

/-- Witness for C5: concrete instances of each quantified conjunct. -/
theorem C5_escape_mapping_witness :
    escapeChar (Char.ofNat 1) =
      [Char.ofNat 92, Char.ofNat 117, Char.ofNat 48, Char.ofNat 48,
       toHex (1 / 16), toHex (1 % 16)] ∧
    escapeChar (Char.ofNat 65) = [Char.ofNat 65] ∧
    escapeChar (Char.ofNat 200) =
      [Char.ofNat 92, Char.ofNat 117,
       toHex ((200 + 65280) / 4096 % 16), toHex ((200 + 65280) / 256 % 16),
       toHex ((200 + 65280) / 16 % 16), toHex ((200 + 65280) % 16)] ∧
    escapeString "Bob" = "Bob" :=
  ⟨C5_escape_mapping.2.2.2.2.2.2.2.1 1 (by decide) (by decide),
   C5_escape_mapping.2.2.2.2.2.2.2.2.1 65 (by decide) (by decide) (by decide) (by decide),
   C5_escape_mapping.2.2.2.2.2.2.2.2.2.1 200 (by decide) (by decide),
   C5_escape_mapping.2.2.2.2.2.2.2.2.2.2 "Bob" (by decide)⟩




/-- Unrolling the toJson loop after its first entry. -/
theorem foldl_toJsonStep (l : List (String × String)) (acc : String) :
    (l.foldl toJsonStep (acc, false)).1 = acc ++ entriesTail l := by
  induction l generalizing acc with
  | nil => simp [entriesTail, String.append_empty]
  | cons kv rest ih =>
    rw [List.foldl_cons]
    have h1 : toJsonStep (acc, false) kv =
        (acc ++ "," ++ "\"" ++ kv.1 ++ "\":" ++ kv.2, false) := rfl
    rw [h1, ih]
    simp only [entriesTail, entryFragment, String.append_assoc]

/-- C6 counterexample: toJson does not escape keys — a key containing a
quote is inserted verbatim between the added quotes, not escaped per the
string rule. -/
theorem C6_keys_not_escaped :
    toJsonEntries [("a\"b", "1")] = "\x7b\"a\"b\":1\x7d" ∧
    toJsonEntries [("a\"b", "1")] ≠ "\x7b\"" ++ escapeString "a\"b" ++ "\":1\x7d" := by
  exact ⟨by decide, by decide⟩

/-- C6 (amended): assembling an empty sink yields \x7b\x7d and a
non-empty sink yields the brace-wrapped comma-separated entries with no
trailing comma, each key wrapped in quotes and inserted VERBATIM (not
escaped), each stored fragment inserted verbatim. -/
theorem C6_assembly_shape :
    ∀ entries : List (String × String),
      toJsonEntries entries = objectLiteralVerbatim entries := by
  intro entries
  cases entries with
  | nil => rfl
  | cons kv rest =>
    rw [toJsonEntries, objectLiteralVerbatim, List.isEmpty_cons, if_neg (by decide),
      List.foldl_cons]
    have h1 : toJsonStep ("\x7b", true) kv =
        ("\x7b" ++ "\"" ++ kv.1 ++ "\":" ++ kv.2, false) := rfl
    rw [h1, foldl_toJsonStep]
    simp only [entryFragment, String.append_assoc]


/-- C10: when the registered validator rejects a property,
TypedSerializer::serializeProperty throws before processProperty is
invoked, so the failed call leaves the sink's stored properties exactly
as they were (the returned state is the unchanged input state). -/
theorem C10_failed_property_leaves_sink_unchanged (st : SessionState) (vd : Validator)
    (name : String) (value : CppVal) (hv : st.validator = some vd)
    (hfail : (vd.validate name value (serializeElementToString value)).is_valid = false) :
    st.serializeProperty name value =
      (st, some ("Validation failed for property '" ++ name ++ "': " ++
        (vd.validate name value (serializeElementToString value)).error_message)) := by
  unfold SessionState.serializeProperty
  rw [hv]
  simp [hfail]

/-- Witness for C10: a negative int rejected by the non-negative rule
leaves a one-entry sink untouched. -/
theorem C10_failed_property_leaves_sink_unchanged_witness :
    (nonNegIntValidator.validate "a" (.intV (-1))
      (serializeElementToString (.intV (-1)))).is_valid = false ∧
    SessionState.serializeProperty ⟨[("k", "\"v\"")], some nonNegIntValidator⟩ "a"
        (.intV (-1)) =
      (⟨[("k", "\"v\"")], some nonNegIntValidator⟩,
       some ("Validation failed for property 'a': " ++
         (nonNegIntValidator.validate "a" (.intV (-1))
           (serializeElementToString (.intV (-1)))).error_message)) :=
  ⟨by decide,
   C10_failed_property_leaves_sink_unchanged _ nonNegIntValidator _ _ rfl (by decide)⟩


/-- C7 counterexample: the claim's conjunction fails on both code paths —
the error-collecting serializer records the soft ErrorRecord but emits NO
sentinel fragment (the property is absent from its document), while the
registered-validator serializer emits the sentinel without ever recording
an ErrorRecord (it has no collector). -/
theorem C7_sentinel_and_record_never_together :
    unsupportedValidatedRun.errors =
      [⟨"x", "Unsupported type encountered", "unknown"⟩] ∧
    unsupportedValidatedRun.json = [] ∧
    toJsonEntries unsupportedValidatedRun.json ≠
      toJsonEntries [("x", unsupportedSentinel)] ∧
    (SessionState.serializeProperty ⟨[], some (Validator.mk [] [] [])⟩ "x" .otherV).2 =
      none ∧
    (SessionState.serializeProperty
        ⟨[], some (Validator.mk [] [] [])⟩ "x" .otherV).1.properties =
      [("x", unsupportedSentinel)] := by
  exact ⟨rfl, rfl, by decide, rfl, rfl⟩

/-- C7 (amended): a property of unsupported type never throws.  With a
validator registered and no rule rejecting it, serializeProperty commits
the fixed quoted sentinel and records nothing; the error-collecting
validated serializer instead records exactly one soft ErrorRecord at the
property's dotted path and emits no fragment.  The sentinel is the fixed
quoted marker. -/
theorem C7_unsupported_sentinel_or_record :
    (∀ (st : SessionState) (name : String),
      st.validator = some (Validator.mk [] [] []) →
      st.serializeProperty name .otherV =
        (st.processProperty name unsupportedSentinel, none)) ∧
    (∀ (st : VStat) (name : String),
      st.serializeUnsupportedType name =
        { st with errors := st.errors ++
            [⟨if st.current_path.isEmpty then name
              else st.current_path ++ "." ++ name,
              "Unsupported type encountered", "unknown"⟩] }) ∧
    serializeElementToString .otherV = "\"[unsupported type]\"" := by
  refine ⟨?_, ?_, rfl⟩
  · intro st name hv
    unfold SessionState.serializeProperty
    rw [hv]
    rfl
  · intro st name
    unfold VStat.serializeUnsupportedType VStat.pushPath VStat.addError VStat.popPath
    simp [List.getLast?_concat, List.dropLast_concat]

/-- Witness for C7: a fresh session with an (empty) registered validator
commits the sentinel for an unsupported property. -/
theorem C7_unsupported_sentinel_or_record_witness :
    (⟨[], some (Validator.mk [] [] [])⟩ : SessionState).validator =
      some (Validator.mk [] [] []) ∧
    SessionState.serializeProperty ⟨[], some (Validator.mk [] [] [])⟩ "x" .otherV =
      (SessionState.processProperty ⟨[], some (Validator.mk [] [] [])⟩ "x"
        unsupportedSentinel, none) :=
  ⟨rfl, C7_unsupported_sentinel_or_record.1 _ "x" rfl⟩

/-- serializeProperty on a passing property commits the fragment. -/
theorem serializeProperty_pass (props0 : List (String × String)) (vd : Validator)
    (name : String) (value : CppVal)
    (h : (vd.validate name value (serializeElementToString value)).is_valid = true) :
    SessionState.serializeProperty ⟨props0, some vd⟩ name value =
      (⟨mapInsert props0 name (serializeElementToString value), some vd⟩, none) := by
  unfold SessionState.serializeProperty
  simp [h, SessionState.processProperty]

/-- serializeProperty on a failing property throws, leaving the state. -/
theorem serializeProperty_fail (props0 : List (String × String)) (vd : Validator)
    (name : String) (value : CppVal)
    (h : (vd.validate name value (serializeElementToString value)).is_valid = false) :
    SessionState.serializeProperty ⟨props0, some vd⟩ name value =
      (⟨props0, some vd⟩,
       some ("Validation failed for property '" ++ name ++ "': " ++
         (vd.validate name value (serializeElementToString value)).error_message)) := by
  unfold SessionState.serializeProperty
  simp [h]

/-- A registered-validator session stops at the first failing property:
the good prefix is committed, the exception propagates, and the rest of
the stream is never presented. -/
theorem serializeSession_abort (vd : Validator) (props0 : List (String × String))
    (good : List (String × CppVal)) (bad : String × CppVal) (rest : List (String × CppVal))
    (hgood : ∀ p ∈ good, (vd.validate p.1 p.2 (serializeElementToString p.2)).is_valid = true)
    (hbad : (vd.validate bad.1 bad.2 (serializeElementToString bad.2)).is_valid = false) :
    serializeSession ⟨props0, some vd⟩ (good ++ bad :: rest) =
      (commitAll ⟨props0, some vd⟩ good,
       some ("Validation failed for property '" ++ bad.1 ++ "': " ++
         (vd.validate bad.1 bad.2 (serializeElementToString bad.2)).error_message)) := by
  obtain ⟨bname, bvalue⟩ := bad
  revert hgood
  induction good generalizing props0 with
  | nil =>
    intro _
    simp only [List.nil_append, serializeSession]
    rw [serializeProperty_fail props0 vd bname bvalue hbad]
    simp [commitAll]
  | cons p good2 ih =>
    intro hgood
    obtain ⟨pn, pv⟩ := p
    have hp := hgood (pn, pv) (List.mem_cons_self _ _)
    simp only [List.cons_append, serializeSession]
    rw [serializeProperty_pass props0 vd pn pv hp]
    exact ih (mapInsert props0 pn (serializeElementToString pv))
      (fun q hq => hgood q (List.mem_cons_of_mem _ hq))

/-- One validated int property from a top-level state: error or commit,
path state restored either way. -/
theorem serializePropertyInt_top (json : List (String × String))
    (errors : List SerializationError) (name : String) (value : Int) :
    VStat.serializePropertyInt ⟨json, errors, "", []⟩ name value =
      if value < 0 then
        ⟨json, errors ++ [⟨name, "Negative integer values not allowed", "int"⟩], "", []⟩
      else ⟨mapInsert json name (cppToStringSigned value), errors, "", []⟩ := by
  unfold VStat.serializePropertyInt VStat.pushPath VStat.addError VStat.popPath
  have he : ("" : String).isEmpty = true := rfl
  by_cases h : value < 0
  · simp [h, he]
  · simp [h, he]

/-- The validated serializer processes a whole top-level int stream
without aborting: the errors of the failing properties accumulate and
the passing properties are committed, with clean path state. -/
theorem runValidatedInts_spec (json : List (String × String))
    (errors : List SerializationError) (props : List (String × Int)) :
    runValidatedInts ⟨json, errors, "", []⟩ props =
      ⟨passedIntCommits json props, errors ++ failedIntRecords props, "", []⟩ := by
  induction props generalizing json errors with
  | nil => simp [runValidatedInts, passedIntCommits, failedIntRecords]
  | cons p rest ih =>
    obtain ⟨name, value⟩ := p
    rw [runValidatedInts, serializePropertyInt_top]
    by_cases h : value < 0
    · rw [if_pos h, ih]
      simp [passedIntCommits, failedIntRecords, h]
    · rw [if_neg h, ih]
      simp [passedIntCommits, failedIntRecords, h]

/-- Inserting a fresh key appends it. -/
theorem mapInsert_of_fresh (l : List (String × String)) (name value : String)
    (h : ∀ e ∈ l, e.1 ≠ name) : mapInsert l name value = l ++ [(name, value)] := by
  induction l with
  | nil => rfl
  | cons kv rest ih =>
    obtain ⟨k, v⟩ := kv
    rw [mapInsert, if_neg (h (k, v) (List.mem_cons_self _ _)),
      ih (fun e he => h e (List.mem_cons_of_mem _ he))]
    rfl

/-- With pairwise-distinct names that are fresh for the initial sink, the
validated serializer's commits are exactly the passing entries appended
in stream order. -/
theorem passedIntCommits_append (props : List (String × Int))
    (json : List (String × String))
    (hfresh : ∀ p ∈ props, ∀ e ∈ json, e.1 ≠ p.1)
    (hnodup : (props.map Prod.fst).Nodup) :
    passedIntCommits json props = json ++ passingIntEntries props := by
  induction props generalizing json with
  | nil => simp [passedIntCommits, passingIntEntries]
  | cons p rest ih =>
    obtain ⟨name, value⟩ := p
    rw [List.map_cons, List.nodup_cons] at hnodup
    obtain ⟨hnotin, hnodup2⟩ := hnodup
    by_cases h : value < 0
    · rw [passedIntCommits, if_pos h, passingIntEntries, if_pos h]
      exact ih json (fun q hq e he => hfresh q (List.mem_cons_of_mem _ hq) e he) hnodup2
    · rw [passedIntCommits, if_neg h, passingIntEntries, if_neg h]
      rw [mapInsert_of_fresh json name _
        (fun e he => hfresh (name, value) (List.mem_cons_self _ _) e he)]
      rw [ih (json ++ [(name, cppToStringSigned value)]) ?_ hnodup2]
      · rw [List.append_assoc]
        rfl
      · intro q hq e he
        rcases List.mem_append.mp he with h1 | h2
        · exact hfresh q (List.mem_cons_of_mem _ hq) e h1
        · have he2 : e = (name, cppToStringSigned value) := List.mem_singleton.mp h2
          subst he2
          intro hcontra
          exact hnotin (hcontra ▸ List.mem_map_of_mem Prod.fst hq)

/-- C1 counterexample: with the non-negative-int rule registered and the
stream a = -1, b = 1 (N = 2, M = 1), the session does not continue past
the failure — serializeProperty throws at "a", nothing reaches the sink
(not even the passing "b"), and no ErrorRecord exists; the claim's
document of exactly N−M = 1 entry is not produced. -/
theorem C1_session_aborts_at_first_failure :
    abortedSession.1.properties = [] ∧
    abortedSession.2 =
      some "Validation failed for property 'a': Integer must be non-negative" ∧
    toJsonEntries abortedSession.1.properties ≠
      toJsonEntries [("b", serializeElementToString (.intV 1))] := by
  exact ⟨by decide, by decide, by decide⟩

/-- C1 (amended): with a Validator registered, the first failing property
makes serializeProperty throw: the failing property is not committed, no
ErrorRecord is recorded, the remaining stream is never processed, and
the sink keeps exactly the properties committed before the failure.  The
record-and-continue behavior belongs to the error-collecting validated
serializer: over a top-level int stream it records exactly one
ErrorRecord per failing property at that property's dotted path,
continues to the end, and (for distinct names) commits exactly the
passing properties in order. -/
theorem C1_abort_on_registered_validator_continue_on_collector :
    (∀ (vd : Validator) (props0 : List (String × String))
        (good : List (String × CppVal)) (bad : String × CppVal)
        (rest : List (String × CppVal)),
      (∀ p ∈ good,
        (vd.validate p.1 p.2 (serializeElementToString p.2)).is_valid = true) →
      (vd.validate bad.1 bad.2 (serializeElementToString bad.2)).is_valid = false →
      serializeSession ⟨props0, some vd⟩ (good ++ bad :: rest) =
        (commitAll ⟨props0, some vd⟩ good,
         some ("Validation failed for property '" ++ bad.1 ++ "': " ++
           (vd.validate bad.1 bad.2 (serializeElementToString bad.2)).error_message))) ∧
    (∀ (json : List (String × String)) (errors : List SerializationError)
        (props : List (String × Int)),
      runValidatedInts ⟨json, errors, "", []⟩ props =
        ⟨passedIntCommits json props, errors ++ failedIntRecords props, "", []⟩) ∧
    (∀ props : List (String × Int), (props.map Prod.fst).Nodup →
      passedIntCommits [] props = passingIntEntries props) := by
  refine ⟨serializeSession_abort, runValidatedInts_spec, ?_⟩
  intro props h
  rw [passedIntCommits_append props [] (by simp) h]
  simp

/-- Witness for C1: the abort at a concrete failing stream, and the
collector's exact output on a concrete mixed stream. -/
theorem C1_abort_on_registered_validator_continue_on_collector_witness :
    (∀ p ∈ ([("ok", CppVal.intV 1)] : List (String × CppVal)),
      (nonNegIntValidator.validate p.1 p.2
        (serializeElementToString p.2)).is_valid = true) ∧
    (nonNegIntValidator.validate "a" (.intV (-1))
      (serializeElementToString (.intV (-1)))).is_valid = false ∧
    serializeSession ⟨[], some nonNegIntValidator⟩
        ([("ok", .intV 1)] ++ ("a", .intV (-1)) :: [("later", .intV 2)]) =
      (commitAll ⟨[], some nonNegIntValidator⟩ [("ok", .intV 1)],
       some ("Validation failed for property 'a': " ++
         (nonNegIntValidator.validate "a" (.intV (-1))
           (serializeElementToString (.intV (-1)))).error_message)) ∧
    (([("x", (5 : Int)), ("y", -3), ("z", 7)].map Prod.fst).Nodup) ∧
    passedIntCommits [] [("x", 5), ("y", -3), ("z", 7)] =
      passingIntEntries [("x", 5), ("y", -3), ("z", 7)] :=
  ⟨by decide, by decide,
   C1_abort_on_registered_validator_continue_on_collector.1 nonNegIntValidator []
     [("ok", .intV 1)] ("a", .intV (-1)) [("later", .intV 2)] (by decide) (by decide),
   by decide,
   C1_abort_on_registered_validator_continue_on_collector.2.2
     [("x", 5), ("y", -3), ("z", 7)] (by decide)⟩

end az
